import Mathlib

/-!
Verification development for the Swift-obfuscation dataset-generation pipeline
(preprocessing_exclude_with_rules).  The Python sources are shallowly embedded:
dynamically-typed JSON-like values become the inductive `PyVal`, pure string
manipulation becomes Lean string/char-list functions, stateful or effectful
code (caches, temp files, retries) becomes explicit state passing, and code
that can raise returns `Except`/`Option`.  Every definition is translated from
the corresponding function in the repository (file and function named in its
doc comment); theorems at the end of the file settle the specification claims.
-/

set_option maxRecDepth 10000

/-- Model of a Python/JSON value: None, bool, int, float (kept as its source
lexeme, since no claim depends on float arithmetic), str, list, dict
(insertion-ordered association list, as Python dicts are). -/
inductive PyVal where
  | pyNone : PyVal
  | bool : Bool → PyVal
  | int : Int → PyVal
  | floatRaw : String → PyVal
  | str : String → PyVal
  | list : List PyVal → PyVal
  | dict : List (String × PyVal) → PyVal
deriving Inhabited

/-- Dictionary key lookup, `d[k]` / `k in d` on the association-list model of a
Python dict (keys are unique in any value produced by Python). -/
def pyLookup (m : List (String × PyVal)) (k : String) : Option PyVal :=
  List.lookup k m

/-- ASCII lower-casing of one character (Python `str.lower()` on the ASCII
range, which is all the code's identifiers and keywords exercise). -/
def pyLowerChar (c : Char) : Char :=
  if 'A' ≤ c ∧ c ≤ 'Z' then Char.ofNat (c.toNat + 32) else c

/-- Python `str.lower()`. -/
def pyLower (s : String) : String :=
  ⟨s.data.map pyLowerChar⟩

/-- Is the first list a leading segment of the second (decidable, executable). -/
def listHasPre {α : Type} [DecidableEq α] : List α → List α → Bool
  | [], _ => true
  | _ :: _, [] => false
  | a :: as, b :: bs => if a = b then listHasPre as bs else false

/-- Does the first list occur as a contiguous segment of the second. -/
def listHasSub {α : Type} [DecidableEq α] : List α → List α → Bool
  | n, [] => n.isEmpty
  | n, h@(_ :: t) => listHasPre n h || listHasSub n t

/-- Python substring test `needle in hay`. -/
def strContains (hay needle : String) : Bool :=
  listHasSub needle.data hay.data

/-- Python `str.startswith(pre)`. -/
def strStartsWith (s pre : String) : Bool :=
  listHasPre pre.data s.data

/-- The whitespace characters removed by Python `str.strip()` (the ASCII ones;
the strings manipulated by the pipeline contain no exotic Unicode whitespace). -/
def isPyWs (c : Char) : Bool :=
  c == ' ' || c == '\t' || c == '\n' || c == '\r' || c == '\x0b' || c == '\x0c'

/-- Python `str.strip()`. -/
def pyStrip (s : String) : String :=
  ⟨((s.data.dropWhile isPyWs).reverse.dropWhile isPyWs).reverse⟩

/-- Python `str.removeprefix(pre)`: drop `pre` if the string starts with it,
otherwise return the string unchanged. -/
def pyRemovePre (s pre : String) : String :=
  if listHasPre pre.data s.data then ⟨s.data.drop pre.data.length⟩ else s

/-- Python `str.removesuffix(suf)`. -/
def pyRemoveSuf (s suf : String) : String :=
  if listHasPre suf.data.reverse s.data.reverse then
    ⟨s.data.take (s.data.length - suf.data.length)⟩
  else s

/-- Index of the first occurrence of character `c`, Python `s.find(c)`
(`Option.none` models the `-1` sentinel). -/
def pyFindChar (l : List Char) (c : Char) : Option Nat :=
  match l with
  | [] => Option.none
  | a :: rest => if a = c then some 0 else (pyFindChar rest c).map (· + 1)

/-- Index of the last occurrence of character `c`, Python `s.rfind(c)`. -/
def pyRFindChar (l : List Char) (c : Char) : Option Nat :=
  (pyFindChar l.reverse c).map (fun i => l.length - 1 - i)

/-- Split at the first occurrence of `c`: the segment strictly before it and
the remainder strictly after it, or `Option.none` when `c` does not occur. -/
def splitAtChar (l : List Char) (c : Char) : Option (List Char × List Char) :=
  match l with
  | [] => Option.none
  | a :: rest =>
    if a = c then some ([], rest)
    else (splitAtChar rest c).map (fun p => (a :: p.1, p.2))

/-- Scans two lists in lockstep and reports whether they disagree at some
position covered by both (used to refute prefix relations). -/
def mismatchWithin : List Char → List Char → Bool
  | a :: as, b :: bs => (a != b) || mismatchWithin as bs
  | _, _ => false

/-- Python truthiness, `if id:` (float literals in model output never occur in
any claim; a float lexeme is treated as truthy). -/
def pyTruthy : PyVal → Bool
  | .pyNone => false
  | .bool b => b
  | .int n => n != 0
  | .floatRaw _ => true
  | .str s => !s.isEmpty
  | .list l => !l.isEmpty
  | .dict m => !m.isEmpty

mutual

/-- Python `repr(v)` for the values reachable here (string escaping and quote
choice are simplified; the code only ever tests such text for `@objc`
containment). -/
def pyRepr : PyVal → String
  | .pyNone => "None"
  | .bool true => "True"
  | .bool false => "False"
  | .int n => toString n
  | .floatRaw s => s
  | .str s => "\x27" ++ s ++ "\x27"
  | .list l => "[" ++ pyReprJoin l ++ "]"
  | .dict m => "\x7b" ++ pyReprJoinPairs m ++ "\x7d"

/-- Comma-joined `repr` of list elements. -/
def pyReprJoin : List PyVal → String
  | [] => ""
  | [v] => pyRepr v
  | v :: rest => pyRepr v ++ ", " ++ pyReprJoin rest

/-- Comma-joined `repr` of dict items. -/
def pyReprJoinPairs : List (String × PyVal) → String
  | [] => ""
  | [(k, v)] => "\x27" ++ k ++ "\x27: " ++ pyRepr v
  | (k, v) :: rest => "\x27" ++ k ++ "\x27: " ++ pyRepr v ++ ", " ++ pyReprJoinPairs rest

end

/-- Python `str(v)`: identity on strings, `repr`-like rendering otherwise. -/
def pyStr : PyVal → String
  | .str s => s
  | v => pyRepr v

/-- JSON insignificant whitespace skipped by `json.loads`. -/
def jsonSkipWs (cs : List Char) : List Char :=
  cs.dropWhile (fun c => c == ' ' || c == '\t' || c == '\n' || c == '\r')

/-- Decodes one JSON string-literal escape; returns the decoded character and
the characters consumed after the backslash. -/
def jsonEscChar (cs : List Char) : Option (Char × List Char) :=
  match cs with
  | '"' :: rest => some ('"', rest)
  | '\\' :: rest => some ('\\', rest)
  | '/' :: rest => some ('/', rest)
  | 'b' :: rest => some ('\x08', rest)
  | 'f' :: rest => some ('\x0c', rest)
  | 'n' :: rest => some ('\n', rest)
  | 'r' :: rest => some ('\r', rest)
  | 't' :: rest => some ('\t', rest)
  | 'u' :: a :: b :: c :: d :: rest =>
    let isHex : Char → Bool := fun x =>
      x.isDigit || ('a' ≤ x && x ≤ 'f') || ('A' ≤ x && x ≤ 'F')
    if isHex a && isHex b && isHex c && isHex d then
      let hv : Char → Nat := fun x =>
        if x.isDigit then x.toNat - '0'.toNat
        else if 'a' ≤ x ∧ x ≤ 'f' then x.toNat - 'a'.toNat + 10
        else x.toNat - 'A'.toNat + 10
      some (Char.ofNat (((hv a * 16 + hv b) * 16 + hv c) * 16 + hv d), rest)
    else Option.none
  | _ => Option.none

/-- Parses the body of a JSON string literal (after the opening quote) up to
and past the closing quote. -/
def jsonParseStrBody (fuel : Nat) (cs : List Char) : Option (List Char × List Char) :=
  match fuel, cs with
  | 0, _ => Option.none
  | _, [] => Option.none
  | fuel + 1, c :: rest =>
    if c = '"' then some ([], rest)
    else if c = '\\' then
      match jsonEscChar rest with
      | some (d, rest2) =>
        (jsonParseStrBody fuel rest2).map (fun p => (d :: p.1, p.2))
      | Option.none => Option.none
    else if c.toNat < 32 then Option.none
    else (jsonParseStrBody fuel rest).map (fun p => (c :: p.1, p.2))

/-- Parses a JSON number: optional minus, digits, optional fraction and
exponent; an integral lexeme yields `PyVal.int`, otherwise the float lexeme is
kept verbatim. -/
def jsonParseNum (cs : List Char) : Option (PyVal × List Char) :=
  let (sign, cs1) := match cs with
    | '-' :: rest => (true, rest)
    | _ => (false, cs)
  let intPart := cs1.takeWhile Char.isDigit
  let cs2 := cs1.dropWhile Char.isDigit
  if intPart.isEmpty then Option.none
  else
    let (fracPart, cs3) := match cs2 with
      | '.' :: rest =>
        let ds := rest.takeWhile Char.isDigit
        if ds.isEmpty then ([], cs2) else ('.' :: ds, rest.dropWhile Char.isDigit)
      | _ => ([], cs2)
    let (expPart, cs4) := match cs3 with
      | e :: rest =>
        if e = 'e' ∨ e = 'E' then
          let (sgn, rest2) := match rest with
            | s :: r2 => if s = '+' ∨ s = '-' then ([s], r2) else (([] : List Char), rest)
            | [] => ([], rest)
          let ds := rest2.takeWhile Char.isDigit
          if ds.isEmpty then (([] : List Char), cs3)
          else (e :: (sgn ++ ds), rest2.dropWhile Char.isDigit)
        else ([], cs3)
      | [] => ([], cs3)
    if fracPart.isEmpty ∧ expPart.isEmpty then
      let mag : Nat := intPart.foldl (fun a c => a * 10 + (c.toNat - '0'.toNat)) 0
      some (.int (if sign then -(mag : Int) else (mag : Int)), cs2)
    else
      let lexeme : List Char := (if sign then ['-'] else []) ++ intPart ++ fracPart ++ expPart
      some (.floatRaw ⟨lexeme⟩, cs4)

mutual

/-- Recursive-descent model of `json.loads` on one value (fuelled; the fuel is
always larger than the input length, so it never runs out on real input). -/
def jsonParseVal (fuel : Nat) (cs : List Char) : Option (PyVal × List Char) :=
  match fuel with
  | 0 => Option.none
  | fuel + 1 =>
    match jsonSkipWs cs with
    | [] => Option.none
    | c :: rest =>
      if c = '"' then
        (jsonParseStrBody (fuel + 1) rest).map (fun p => (.str ⟨p.1⟩, p.2))
      else if c = '{' then
        match jsonSkipWs rest with
        | '}' :: rest2 => some (.dict [], rest2)
        | _ => jsonParseMembers fuel rest []
      else if c = '[' then
        match jsonSkipWs rest with
        | ']' :: rest2 => some (.list [], rest2)
        | _ => jsonParseItems fuel rest []
      else if c = 't' then
        match rest with
        | 'r' :: 'u' :: 'e' :: rest2 => some (.bool true, rest2)
        | _ => Option.none
      else if c = 'f' then
        match rest with
        | 'a' :: 'l' :: 's' :: 'e' :: rest2 => some (.bool false, rest2)
        | _ => Option.none
      else if c = 'n' then
        match rest with
        | 'u' :: 'l' :: 'l' :: rest2 => some (.pyNone, rest2)
        | _ => Option.none
      else jsonParseNum (c :: rest)

/-- Parses the members of a JSON object after `{` (at least one member). -/
def jsonParseMembers (fuel : Nat) (cs : List Char) (acc : List (String × PyVal)) :
    Option (PyVal × List Char) :=
  match fuel with
  | 0 => Option.none
  | fuel + 1 =>
    match jsonSkipWs cs with
    | '"' :: rest =>
      match jsonParseStrBody (fuel + 1) rest with
      | some (key, rest2) =>
        match jsonSkipWs rest2 with
        | ':' :: rest3 =>
          match jsonParseVal fuel rest3 with
          | some (v, rest4) =>
            match jsonSkipWs rest4 with
            | ',' :: rest5 => jsonParseMembers fuel rest5 (acc ++ [(⟨key⟩, v)])
            | '}' :: rest5 => some (.dict (acc ++ [(⟨key⟩, v)]), rest5)
            | _ => Option.none
          | Option.none => Option.none
        | _ => Option.none
      | Option.none => Option.none
    | _ => Option.none

/-- Parses the items of a JSON array after `[` (at least one item). -/
def jsonParseItems (fuel : Nat) (cs : List Char) (acc : List PyVal) :
    Option (PyVal × List Char) :=
  match fuel with
  | 0 => Option.none
  | fuel + 1 =>
    match jsonParseVal fuel cs with
    | some (v, rest) =>
      match jsonSkipWs rest with
      | ',' :: rest2 => jsonParseItems fuel rest2 (acc ++ [v])
      | ']' :: rest2 => some (.list (acc ++ [v]), rest2)
      | _ => Option.none
    | Option.none => Option.none

end

/-- Model of Python `json.loads`: parse one value and require only whitespace
after it; any failure is `Option.none` (the `json.JSONDecodeError` path). -/
def jsonLoads (s : String) : Option PyVal :=
  match jsonParseVal (s.data.length + 2) s.data with
  | some (v, rest) => if (jsonSkipWs rest).isEmpty then some v else Option.none
  | Option.none => Option.none

/-- A validated model response, the dict shape `{"identifiers": [...]}`
returned by `ClaudeHandler._parse_response`. -/
structure ModelResp where
  identifiers : List String
deriving DecidableEq, Repr

/-- Index of the first occurrence of the two-character sequence `*/`. -/
def findStarSlash : List Char → Option Nat
  | '*' :: '/' :: _ => some 0
  | _ :: rest => (findStarSlash rest).map (· + 1)
  | [] => Option.none

/-- Model of `re.sub(r'/\*.*?\*/', '', s, flags=re.DOTALL)`: each `/*` with a
later `*/` is removed up to the first such `*/`; a `/*` with no closing `*/`
matches nothing and is kept (fuelled scanner). -/
def stripBlockCommentsF (fuel : Nat) (cs : List Char) : List Char :=
  match fuel, cs with
  | 0, l => l
  | _, [] => []
  | fuel + 1, '/' :: '*' :: rest =>
    (match findStarSlash rest with
     | some k => stripBlockCommentsF fuel (rest.drop (k + 2))
     | Option.none => '/' :: '*' :: rest)
  | fuel + 1, c :: rest => c :: stripBlockCommentsF fuel rest

/-- Block-comment removal with enough fuel for the whole input. -/
def stripBlockComments (cs : List Char) : List Char :=
  stripBlockCommentsF (cs.length + 1) cs

/-- Model of `re.sub(r'//.*?$', '', s, flags=re.MULTILINE)`: from each `//` the
characters up to (not including) the next newline are removed. -/
def stripLineCommentsF (fuel : Nat) (cs : List Char) : List Char :=
  match fuel, cs with
  | 0, l => l
  | _, [] => []
  | fuel + 1, '/' :: '/' :: rest => stripLineCommentsF fuel (rest.dropWhile (· ≠ '\n'))
  | fuel + 1, c :: rest => c :: stripLineCommentsF fuel rest

/-- Line-comment removal with enough fuel for the whole input. -/
def stripLineComments (cs : List Char) : List Char :=
  stripLineCommentsF (cs.length + 1) cs

/-- Tier 1 of `ClaudeHandler._parse_response` (the "clean JSON" attempt):
strip markdown fences, slice from the first `{` to the last `}`, drop `/* */`
and `//` comments, `json.loads`, and keep a list-valued `identifiers` field,
coercing elements to stripped strings and dropping falsy ones.  `Option.none`
covers both a swallowed exception and the fall-through when the parsed value
has no list-valued `identifiers` field. -/
def parseTier1 (responseText : String) : Option (List String) :=
  let clean0 := pyStrip responseText
  let clean1 := pyRemovePre (pyRemovePre clean0 "```json") "```"
  let clean2 := pyStrip (pyRemoveSuf clean1 "```")
  match pyFindChar clean2.data '{', pyRFindChar clean2.data '}' with
  | some startIdx, some endIdx =>
    let jsonChars := (clean2.data.drop startIdx).take (endIdx + 1 - startIdx)
    let jsonChars2 := stripLineComments (stripBlockComments jsonChars)
    match jsonLoads ⟨jsonChars2⟩ with
    | some (.dict m) =>
      match pyLookup m "identifiers" with
      | some (.list ids) => some ((ids.filter pyTruthy).map (fun v => pyStrip (pyStr v)))
      | _ => Option.none
    | _ => Option.none
  | _, _ => Option.none

/-- First span matched by `re.search(r'\[([^\]]+)\]', s)`: the characters
strictly between a `[` and the first following `]`, requiring at least one
character in between (the regex engine advances past a candidate `[` whose
very next character is `]`). -/
def firstBracketSpanF (fuel : Nat) (cs : List Char) : Option (List Char) :=
  match fuel, cs with
  | 0, _ => Option.none
  | _, [] => Option.none
  | fuel + 1, '[' :: rest =>
    (match splitAtChar rest ']' with
     | some (before, _) =>
       if before.isEmpty then firstBracketSpanF fuel rest else some before
     | Option.none => firstBracketSpanF fuel rest)
  | fuel + 1, _ :: rest => firstBracketSpanF fuel rest

/-- Bracket-span search with enough fuel for the whole input. -/
def firstBracketSpan (cs : List Char) : Option (List Char) :=
  firstBracketSpanF (cs.length + 1) cs

/-- Tier 2 of `ClaudeHandler._parse_response`: extract the first bracketed
span from the raw text, parse it as a JSON array, and coerce its elements. -/
def parseTier2 (responseText : String) : Option (List String) :=
  match firstBracketSpan responseText.data with
  | some inner =>
    let arrayStr : String := ⟨'[' :: (inner ++ [']'])⟩
    match jsonLoads arrayStr with
    | some (.list ids) => some ((ids.filter pyTruthy).map (fun v => pyStrip (pyStr v)))
    | _ => Option.none
  | Option.none => Option.none

/-- All matches of `re.findall(r'"([^"]+)"', s)`: non-overlapping maximal-scan
pairs of double quotes with at least one character between them; after an
empty pair the engine re-tries with the closing quote as a new opener. -/
def findQuotedF (fuel : Nat) (cs : List Char) : List String :=
  match fuel, cs with
  | 0, _ => []
  | _, [] => []
  | fuel + 1, '"' :: rest =>
    (match splitAtChar rest '"' with
     | some (before, after) =>
       if before.isEmpty then findQuotedF fuel rest
       else (⟨before⟩ : String) :: findQuotedF fuel after
     | Option.none => [])
  | fuel + 1, _ :: rest => findQuotedF fuel rest

/-- Quoted-substring extraction with enough fuel for the whole input. -/
def findQuoted (cs : List Char) : List String :=
  findQuotedF (cs.length + 1) cs

/-- The exact-match stoplist of meta-keywords dropped by tier 3. -/
def tier3Stoplist : List String :=
  ["identifiers", "reasoning", "error", "exclusions", "evidence"]

/-- Tier 3 of `ClaudeHandler._parse_response`: every double-quoted substring,
minus the stoplist and entries starting with `is_` or `This `, capped at 100;
an empty remainder falls through (`Option.none`). -/
def parseTier3 (responseText : String) : Option (List String) :=
  let ids := findQuoted responseText.data
  let filtered := ids.filter (fun id =>
    !(tier3Stoplist.contains id) && id.length > 0 &&
    !(strStartsWith id "is_") && !(strStartsWith id "This "))
  if filtered.isEmpty then Option.none else some (filtered.take 100)

/-- `ClaudeHandler._parse_response` (src/handlers/claude_handler.py): the
three-tier cascade with the empty identifier list as final default. -/
def parse_response (responseText : String) : ModelResp :=
  match parseTier1 responseText with
  | some ids => ⟨ids⟩
  | Option.none =>
    match parseTier2 responseText with
    | some ids => ⟨ids⟩
    | Option.none =>
      match parseTier3 responseText with
      | some ids => ⟨ids⟩
      | Option.none => ⟨[]⟩

/-- Response-handler state: the prompt-hash-keyed response cache
(`data/api_cache`), newest entry first; entries hold the parsed response that
was serialized to the cache file. -/
structure HState where
  cache : List (String × ModelResp)
deriving Repr

/-- `ClaudeHandler.generate_identifiers` (src/handlers/claude_handler.py),
with the effectful collaborators made explicit: `md5` is the prompt-hash
function, `net` the outcome of the single API transport call (`.error` for an
API/transport failure, `.ok text` for the reply text), and cache file I/O is
assumed to succeed (failed reads and writes are swallowed by the code).
Returns the raised-or-returned result, the updated cache state, and whether
the network was called. -/
def generate_identifiers (md5 : String → String) (net : Except String String)
    (useCache : Bool) (prompt : String) (st : HState) :
    Except String ModelResp × HState × Bool :=
  match (if useCache then List.lookup (md5 prompt) st.cache else Option.none) with
  | some cached => (.ok cached, st, false)
  | Option.none =>
    match net with
    | .error e => (.error ("Claude API error: " ++ e), st, true)
    | .ok text =>
      let parsed := parse_response (pyStrip text)
      let st2 : HState := if useCache then ⟨(md5 prompt, parsed) :: st.cache⟩ else st
      (.ok parsed, st2, true)

/-- Retry loop body of `ClaudeHandler.generate_with_retry`, indexed by the
number of remaining attempts and the current attempt number; `gen n` is the
outcome of attempt `n` of `generate_identifiers` (a raised exception or a
response dict).  Returns the loop's value (`Option.none` models falling off
the end of the `for` and returning Python `None`) together with the list of
back-off sleeps performed (`2 ** attempt` seconds each). -/
def retryFrom (gen : Nat → Except String ModelResp) :
    Nat → Nat → Option ModelResp × List Nat
  | 0, _ => (Option.none, [])
  | remaining + 1, attempt =>
    match gen attempt with
    | .ok r => (some r, [])
    | .error _ =>
      if remaining = 0 then (some ⟨[]⟩, [])
      else
        let p := retryFrom gen remaining (attempt + 1)
        (p.1, 2 ^ attempt :: p.2)

/-- `ClaudeHandler.generate_with_retry` (src/handlers/claude_handler.py):
`for attempt in range(max_retries)` starting at attempt 0. -/
def generate_with_retry (gen : Nat → Except String ModelResp) (maxRetries : Nat) :
    Option ModelResp × List Nat :=
  retryFrom gen maxRetries 0

/-- The twelve category keys flattened by `ASTAnalyzer.extract_ast`, in source
order. -/
def astCategories : List String :=
  ["classes", "structs", "enums", "protocols",
   "methods", "properties", "variables", "enumCases",
   "initializers", "deinitializers", "subscripts", "extensions"]

/-- The flattening loop of `ASTAnalyzer.extract_ast`: for each known category
key in order, append the list stored under it (keys that are missing or hold a
non-list are skipped by the `isinstance` guard). -/
def flattenDecisions (decisions : List (String × PyVal)) : List PyVal :=
  astCategories.foldl
    (fun acc category =>
      match pyLookup decisions category with
      | some (.list l) => acc ++ l
      | _ => acc)
    []

/-- Output-shape normalization of `ASTAnalyzer.extract_ast`
(src/analyzers/ast_analyzer.py, after `json.loads` succeeds): a dict holding a
`decisions` dict is flattened over the twelve category keys (empty result →
`Option.none`, the Absent marker); a dict holding a non-dict `decisions` value
makes the category iteration/indexing raise, which the enclosing
`except Exception` turns into `Option.none`; a non-list value is wrapped as a
one-element list; a list is used as-is. -/
def normalize_ast_output (astData : PyVal) : Option (List PyVal) :=
  match astData with
  | .dict m =>
    match pyLookup m "decisions" with
    | some (.dict decisions) =>
      let symbolList := flattenDecisions decisions
      if symbolList.isEmpty then Option.none else some symbolList
    | some _ => Option.none
    | Option.none => some [astData]
  | .list l => some l
  | v => some [v]

/-- Outcome of a Python call: a returned value or a raised exception. -/
inductive PyResult (α : Type) where
  | ok : α → PyResult α
  | exn : String → PyResult α
deriving DecidableEq, Repr

/-- The `finally` combinator: run the body, then the cleanup on the state —
also when the body raised, in which case the exception is re-raised. -/
def tryFinallyTemp {α : Type} (body : PyResult α) (cleanup : Bool → Bool)
    (tempExists : Bool) : PyResult α × Bool :=
  (body, cleanup tempExists)

/-- The cleanup block of `ASTAnalyzer.extract_ast_from_code`:
`if temp_path.exists(): temp_path.unlink()`. -/
def tempCleanup (tempExists : Bool) : Bool :=
  if tempExists then false else tempExists

/-- `ASTAnalyzer.extract_ast_from_code` (src/analyzers/ast_analyzer.py): write
the code to a temp file (state: the temp file now exists), delegate to
`extract_ast` on that path — `delegateResult` is that call's outcome, a value
(`some` symbols or `Option.none` for Absent) or a raised exception — and
remove the temp file in a `finally` block.  Returns the delegated outcome and
whether the temp file still exists afterwards. -/
def extract_ast_from_code (delegateResult : PyResult (Option (List PyVal))) :
    PyResult (Option (List PyVal)) × Bool :=
  let tempWritten := true
  tryFinallyTemp delegateResult tempCleanup tempWritten

/-- One exclusion rule of the YAML corpus, in the well-typed shape the corpus
documents (`id`, `description`, `pattern` with `where` clause strings); the
relevance heuristics and the formatter access exactly these fields via
`rule.get`. -/
structure Rule where
  id : String
  description : String
  pattern : List (List String)
deriving DecidableEq, Repr

/-- Outcome of `yaml.safe_load` on the rules file: a raised
`yaml.YAMLError`/other exception, or a parsed document value. -/
inductive YamlOutcome where
  | raised : YamlOutcome
  | value : PyVal → YamlOutcome
deriving Inhabited

/-- `RuleFilter._load_rules` (src/analyzers/rule_filter.py): a missing file or
a parse exception degrades to `{'rules': []}` with a warning; otherwise the
parsed document is returned as-is, whatever its shape. -/
def load_rules (fileExists : Bool) (parsed : YamlOutcome) : PyVal :=
  if fileExists = false then .dict [("rules", .list [])]
  else
    match parsed with
    | .raised => .dict [("rules", .list [])]
    | .value v => v

/-- `RuleFilter.__init__` (src/analyzers/rule_filter.py): stores
`rules_data.get('rules', [])` as the corpus.  `.get` exists only on a dict:
when `_load_rules` hands back a non-dict document (e.g. `None`, which is what
`yaml.safe_load` returns for an empty file), the attribute access raises
`AttributeError` out of the constructor. -/
def rule_filter_init (fileExists : Bool) (parsed : YamlOutcome) :
    Except String PyVal :=
  match load_rules fileExists parsed with
  | .dict m => .ok ((pyLookup m "rules").getD (.list []))
  | _ => .error "AttributeError: object has no attribute get"

mutual

/-- Recursive identifier collection of
`RuleFilter.extract_identifiers_from_ast`: every `symbol_name` value and every
string-valued `name` value, across arbitrarily nested dicts and lists (the
code accumulates into a set; the model keeps a list, of which only membership
and emptiness are ever used).  A non-string `symbol_name` value would be added
to the set by the code and make every later `.lower()` relevance test raise;
the model covers the string-valued fragment the corpus contract describes. -/
def extractIdsVal : PyVal → List String
  | .dict m =>
    (match pyLookup m "symbol_name" with
     | some (.str s) => [s]
     | _ => []) ++
    (match pyLookup m "name" with
     | some (.str s) => [s]
     | _ => []) ++
    extractIdsPairs m
  | .list l => extractIdsList l
  | _ => []

/-- Identifier collection over the values of a dict. -/
def extractIdsPairs : List (String × PyVal) → List String
  | [] => []
  | (_, v) :: rest => extractIdsVal v ++ extractIdsPairs rest

/-- Identifier collection over the items of a list. -/
def extractIdsList : List PyVal → List String
  | [] => []
  | v :: rest => extractIdsVal v ++ extractIdsList rest

end

/-- `RuleFilter.extract_identifiers_from_ast` (src/analyzers/rule_filter.py). -/
def extract_identifiers_from_ast (astData : List PyVal) : List String :=
  extractIdsList astData

/-- The `@objc` test of heuristic 3: some top-level symbol of the AST is a
dict whose `attributes` list has an entry whose `str(...)` form contains
`@objc`. -/
def symbolHasObjcAttr (symbol : PyVal) : Bool :=
  match symbol with
  | .dict m =>
    match pyLookup m "attributes" with
    | some (.list attrs) => attrs.any (fun attr => strContains (pyStr attr) "@objc")
    | _ => false
  | _ => false

/-- `RuleFilter._is_rule_relevant` (src/analyzers/rule_filter.py): the fixed
heuristic chain.  Each keyword step returns True when both its description
test and its identifier/attribute test hold; otherwise control falls through
to the next step, and finally to the pattern `where`-clause scan. -/
def is_rule_relevant (rule : Rule) (fileIdentifiers : List String)
    (astData : List PyVal) : Bool :=
  let description := pyLower rule.description
  if (strContains description "uikit" || strContains description "uiview") &&
      fileIdentifiers.any (fun id => strContains (pyLower id) "ui") then
    true
  else if (strContains description "appdelegate" || strContains description "scenedelegate") &&
      fileIdentifiers.any (fun id => strContains (pyLower id) "delegate") then
    true
  else if (strContains description "@objc" || strContains description "objective-c") &&
      astData.any symbolHasObjcAttr then
    true
  else if strContains description "codable" &&
      fileIdentifiers.any (fun id =>
        strContains (pyLower id) "codable" || strContains (pyLower id) "decodable") then
    true
  else
    rule.pattern.any (fun whereClauses =>
      whereClauses.any (fun clause =>
        fileIdentifiers.any (fun identifier => strContains clause identifier)))

/-- The collection loop of `RuleFilter.filter_rules_for_file`: walk the corpus
in stored order carrying the count of rules collected so far; a relevant rule
is appended first and the `>= max_rules` break is checked after the append. -/
def filterRulesLoop (fileIdentifiers : List String) (astData : List PyVal)
    (maxRules : Nat) : List Rule → Nat → List Rule
  | [], _ => []
  | rule :: rest, count =>
    if is_rule_relevant rule fileIdentifiers astData then
      if count + 1 ≥ maxRules then [rule]
      else rule :: filterRulesLoop fileIdentifiers astData maxRules rest (count + 1)
    else filterRulesLoop fileIdentifiers astData maxRules rest count

/-- `RuleFilter.filter_rules_for_file` (src/analyzers/rule_filter.py): empty
identifier set → empty result; otherwise first-N selection of relevant rules
in corpus order. -/
def filter_rules_for_file (allRules : List Rule) (astData : List PyVal)
    (maxRules : Nat) : List Rule :=
  let fileIdentifiers := extract_identifiers_from_ast astData
  if fileIdentifiers.isEmpty then []
  else filterRulesLoop fileIdentifiers astData maxRules allRules 0

/-- The numbered-item loop of `RuleFilter.format_rules_for_prompt`
(enumerate starting at 1 over the first ten filtered rules). -/
def formatRulesItems : Nat → List Rule → String
  | _, [] => ""
  | i, rule :: rest =>
    toString i ++ ". **Rule ID**: `" ++ rule.id ++ "`\n" ++
    "   **Description**: " ++ rule.description ++ "\n" ++
    (if rule.pattern.isEmpty then ""
     else "   **Pattern**: Checks for specific symbol attributes\n") ++
    "\n" ++ formatRulesItems (i + 1) rest

/-- `RuleFilter.format_rules_for_prompt` (src/analyzers/rule_filter.py): the
fixed no-match sentence for an empty result, otherwise a header, a disclaimer,
and a numbered list of at most the first ten rules, stripped at the end. -/
def format_rules_for_prompt (filteredRules : List Rule) : String :=
  if filteredRules.isEmpty then "No specific rules matched for this file."
  else
    pyStrip
      ("**Relevant Exclusion Rule Examples:**\n\n" ++
       "*Note: These rules are EXAMPLES. Use your expertise to find ALL identifiers that should be excluded, even if they don\x27t match these exact patterns.*\n\n" ++
       formatRulesItems 1 (filteredRules.take 10))

/-- `n` spaces, the indentation unit of `json.dumps(..., indent=2)`. -/
def indentSpaces (n : Nat) : String :=
  ⟨List.replicate n ' '⟩

/-- JSON string escaping of `json.dumps(..., ensure_ascii=False)`: quote,
backslash and the common control characters (other sub-0x20 characters would
be emitted as `\u00XX`; they do not occur in the pipeline's data). -/
def jsonEscapeChar (c : Char) : List Char :=
  if c = '"' then ['\\', '"']
  else if c = '\\' then ['\\', '\\']
  else if c = '\n' then ['\\', 'n']
  else if c = '\t' then ['\\', 't']
  else if c = '\r' then ['\\', 'r']
  else [c]

/-- Escaped rendering of a JSON string literal's body. -/
def jsonEscape (s : String) : String :=
  ⟨(s.data.map jsonEscapeChar).flatten⟩

mutual

/-- Model of `json.dumps(v, indent=2, ensure_ascii=False)` at nesting
indentation `ind`: pretty-printed with two-space indentation, `", "`/`": "`
separators, and empty containers on one line, as the Python serializer does. -/
def jsonDumpVal (ind : Nat) : PyVal → String
  | .pyNone => "null"
  | .bool true => "true"
  | .bool false => "false"
  | .int n => toString n
  | .floatRaw s => s
  | .str s => "\"" ++ jsonEscape s ++ "\""
  | .list [] => "[]"
  | .list (v :: rest) =>
    "[\n" ++ jsonDumpItems (ind + 2) (v :: rest) ++ "\n" ++ indentSpaces ind ++ "]"
  | .dict [] => "\x7b\x7d"
  | .dict (kv :: rest) =>
    "\x7b\n" ++ jsonDumpPairs (ind + 2) (kv :: rest) ++ "\n" ++ indentSpaces ind ++ "\x7d"

/-- Indented, comma-newline-separated array items. -/
def jsonDumpItems (ind : Nat) : List PyVal → String
  | [] => ""
  | [v] => indentSpaces ind ++ jsonDumpVal ind v
  | v :: rest =>
    indentSpaces ind ++ jsonDumpVal ind v ++ ",\n" ++ jsonDumpItems ind rest

/-- Indented, comma-newline-separated object members. -/
def jsonDumpPairs (ind : Nat) : List (String × PyVal) → String
  | [] => ""
  | [(k, v)] =>
    indentSpaces ind ++ "\"" ++ jsonEscape k ++ "\": " ++ jsonDumpVal ind v
  | (k, v) :: rest =>
    indentSpaces ind ++ "\"" ++ jsonEscape k ++ "\": " ++ jsonDumpVal ind v ++ ",\n" ++
    jsonDumpPairs ind rest

end

/-- Top-level `json.dumps(v, indent=2, ensure_ascii=False)`. -/
def pyJsonDumps (v : PyVal) : String :=
  jsonDumpVal 0 v

/-- The literal text of the `PromptBuilder.build_prompt` f-string template
before the `swift_code` interpolation point (src/generators/prompt_builder.py,
the template's opening segment; doubled braces of the f-string render as
single braces, written here as their character escapes). -/
def promptPart0 : String :=
  "You are an expert Swift code auditor specializing in code obfuscation safety analysis.\n" ++
  "\n" ++
  "Your task is to analyze the provided Swift source code and its AST (Abstract Syntax Tree) information to identify ALL identifiers that MUST be excluded from obfuscation.\n" ++
  "\n" ++
  "## CRITICAL INSTRUCTIONS\n" ++
  "\n" ++
  "1. **Rules are EXAMPLES, not exhaustive requirements**\n" ++
  "   - The provided rules below are REFERENCE EXAMPLES based on common patterns\n" ++
  "   - Use your expertise to identify ADDITIONAL patterns not covered by these rules\n" ++
  "   - If you find identifiers that should be excluded but don\x27t match the example rules, INCLUDE THEM\n" ++
  "\n" ++
  "2. **Apply Swift/iOS Framework Knowledge**\n" ++
  "   - Framework delegate methods (UITableViewDelegate, etc.)\n" ++
  "   - Lifecycle methods (viewDidLoad, viewWillAppear, etc.)\n" ++
  "   - Protocol requirements (Codable, Identifiable, etc.)\n" ++
  "   - System callbacks and runtime dependencies\n" ++
  "   - @objc exposed symbols\n" ++
  "   - IBOutlet, IBAction, and Interface Builder connections\n" ++
  "\n" ++
  "3. **Look for Runtime Dependencies**\n" ++
  "   - String-based lookups (KVC, KVO)\n" ++
  "   - Objective-C runtime interactions\n" ++
  "   - Serialization contracts (JSON, Codable)\n" ++
  "   - Foreign function interfaces\n" ++
  "   - Dynamic member lookup\n" ++
  "\n" ++
  "4. **Output Format Requirements**\n" ++
  "   - Return ONLY a valid JSON object\n" ++
  "   - Use this EXACT format: \x7b\"identifiers\": [\"id1\", \"id2\", ...]\x7d\n" ++
  "   - NO markdown code blocks\n" ++
  "   - NO explanations or comments\n" ++
  "   - NO additional text before or after the JSON\n" ++
  "   - If no identifiers need exclusion, return \x7b\"identifiers\": []\x7d\n" ++
  "\n" ++
  "---\n" ++
  "\n" ++
  "## OUTPUT FORMAT EXAMPLES\n" ++
  "\n" ++
  "**Example 1 - UIViewController with lifecycle methods:**\n" ++
  "```json\n" ++
  "\x7b\"identifiers\": [\"viewDidLoad\", \"viewWillAppear\", \"viewDidDisappear\", \"tableView\", \"numberOfRowsInSection\", \"cellForRowAt\"]\x7d\n" ++
  "```\n" ++
  "\n" ++
  "**Example 2 - Codable struct:**\n" ++
  "```json\n" ++
  "\x7b\"identifiers\": [\"id\", \"name\", \"email\", \"createdAt\"]\x7d\n" ++
  "```\n" ++
  "\n" ++
  "**Example 3 - @objc exposed class:**\n" ++
  "```json\n" ++
  "\x7b\"identifiers\": [\"MyViewController\", \"handleTap\", \"updateUI\", \"delegate\"]\x7d\n" ++
  "```\n" ++
  "\n" ++
  "**Example 4 - No exclusions needed:**\n" ++
  "```json\n" ++
  "\x7b\"identifiers\": []\x7d\n" ++
  "```\n" ++
  "\n" ++
  "**Example 5 - SwiftUI View:**\n" ++
  "```json\n" ++
  "\x7b\"identifiers\": [\"body\", \"navigationTitle\", \"onAppear\"]\x7d\n" ++
  "```\n" ++
  "\n" ++
  "---\n" ++
  "\n" ++
  "## INPUT DATA\n" ++
  "\n" ++
  "### Swift Source Code:\n" ++
  "```swift\n"

/-- Template segment between the `swift_code` and `ast_json` interpolation
points. -/
def promptPart1 : String :=
  "\n```\n\n### AST Symbol Information:\n```json\n"

/-- Template segment between the `ast_json` and `rules_text` interpolation
points. -/
def promptPart2 : String :=
  "\n```\n\n### Example Exclusion Rules (REFERENCE ONLY):\n"

/-- Template segment after the `rules_text` interpolation point, up to the end
of the f-string. -/
def promptPart3 : String :=
  "\n" ++
  "\n" ++
  "---\n" ++
  "\n" ++
  "## YOUR TASK\n" ++
  "\n" ++
  "Analyze the code and return ONLY a JSON object with ALL identifiers that should be excluded from obfuscation.\n" ++
  "\n" ++
  "**CRITICAL**: Your response must be ONLY the JSON object. Do not include any other text, explanations, or markdown formatting.\n" ++
  "\n" ++
  "Output format:\n" ++
  "\x7b\"identifiers\": [\"identifier1\", \"identifier2\", ...]\x7d\n"

/-- `PromptBuilder.build_prompt` (src/generators/prompt_builder.py): renders
the AST data with `json.dumps(ast_data, indent=2, ensure_ascii=False)` and
interpolates source code, AST JSON, and formatted rule text into the fixed
template. -/
def build_prompt (swiftCode : String) (astData : List PyVal) (rulesText : String) : String :=
  let astJson := pyJsonDumps (.list astData)
  promptPart0 ++ swiftCode ++ promptPart1 ++ astJson ++ promptPart2 ++ rulesText ++ promptPart3

/-- The literal `instruction` string assigned in
`DatasetGenerator.process_single_file` (src/generators/dataset_generator.py,
step 4) and stored as the dataset entry's `instruction` field; it is a plain
(non-f) string, identical for every processed file. -/
def dataset_instruction : String :=
  "You are an expert Swift code auditor specializing in obfuscation safety analysis.\n" ++
  "\n" ++
  "Analyze the provided Swift source code, AST (Abstract Syntax Tree), and exclusion rule examples to identify ALL identifiers that must be excluded from obfuscation.\n" ++
  "\n" ++
  "**What to analyze:**\n" ++
  "- Swift source code with complete implementation\n" ++
  "- AST symbol information including attributes, inheritance, protocols, and modifiers\n" ++
  "- Example exclusion rules (use as reference patterns, not exhaustive requirements)\n" ++
  "\n" ++
  "**What to identify:**\n" ++
  "- Framework delegate methods (UITableViewDelegate, UIApplicationDelegate, etc.)\n" ++
  "- System lifecycle methods (viewDidLoad, viewWillAppear, applicationDidFinishLaunching, etc.)\n" ++
  "- Protocol requirements and their implementations (Codable properties, Identifiable.id, etc.)\n" ++
  "- @objc exposed symbols and Objective-C runtime dependencies\n" ++
  "- IBOutlet, IBAction, and Interface Builder connections\n" ++
  "- String-based lookups (KVC, KVO, NSCoding keys)\n" ++
  "- Serialization properties (Codable, JSON keys)\n" ++
  "- SwiftUI View body and environment properties\n" ++
  "- Any identifiers that could break runtime behavior if renamed\n" ++
  "\n" ++
  "**Critical instructions:**\n" ++
  "1. The provided rules are EXAMPLES - use your Swift/iOS expertise to find additional patterns\n" ++
  "2. Analyze ALL three inputs: source code, AST structure, and rule patterns\n" ++
  "3. Return EVERY identifier that needs exclusion, even if not matching example rules\n" ++
  "4. Consider runtime dependencies, framework contracts, and dynamic lookups\n" ++
  "\n" ++
  "**Output format:**\n" ++
  "Return a JSON object with this exact structure:\n" ++
  "\x7b\"identifiers\": [\"identifier1\", \"identifier2\", ...]\x7d\n" ++
  "\n" ++
  "Include ALL identifiers that must be excluded. Return empty array if none needed: \x7b\"identifiers\": []\x7d"

/-- Is the value a Python dict (the only shape carrying a `.get` method). -/
def isPyDict : PyVal → Bool
  | .dict _ => true
  | _ => false

/-- Is the value a Python list (`isinstance(ast_data, list)`). -/
def isPyList : PyVal → Bool
  | .list _ => true
  | _ => false

/-- Is the value a dict containing a `decisions` key
(`isinstance(ast_data, dict) and "decisions" in ast_data`). -/
def hasDecisionsKey : PyVal → Bool
  | .dict m => (pyLookup m "decisions").isSome
  | _ => false

/-- A mismatch between two lists, both covering the mismatch position, rules
out the first being a leading segment of any extension of the second. -/
theorem hasPre_false_of_mismatch :
    ∀ (a p s : List Char), mismatchWithin a p = true → listHasPre a (p ++ s) = false := by
  intro a
  induction a with
  | nil =>
    intro p s h
    cases p <;> simp [mismatchWithin] at h
  | cons x xs ih =>
    intro p s h
    cases p with
    | nil => simp [mismatchWithin] at h
    | cons y ys =>
      simp only [mismatchWithin, Bool.or_eq_true, bne_iff_ne, ne_eq] at h
      by_cases hxy : x = y
      · subst hxy
        rcases h with h | h
        · exact absurd rfl h
        · simpa [listHasPre] using ih ys s h
      · simp [listHasPre, hxy]

/-- The dataset instruction and the prompt template's opening segment disagree
within their common span (at character index 53: `obfuscation safety` versus
`code obfuscation safety`). -/
theorem instr_promptPart0_mismatch :
    mismatchWithin dataset_instruction.data promptPart0.data = true := by
  decide

/-- The character data of an assembled prompt, re-associated so that the
template's opening segment is in evidence. -/
theorem build_prompt_data (code : String) (ast : List PyVal) (rules : String) :
    (build_prompt code ast rules).data =
      promptPart0.data ++
        (code.data ++ (promptPart1.data ++ ((pyJsonDumps (.list ast)).data ++
          (promptPart2.data ++ (rules.data ++ promptPart3.data))))) := by
  simp [build_prompt, String.data_append, List.append_assoc]

/-- Shared helper: for every input triple, the dataset instruction is not a
leading segment of the assembled full prompt. -/
theorem instr_never_leads_prompt (code : String) (ast : List PyVal) (rules : String) :
    listHasPre dataset_instruction.data (build_prompt code ast rules).data = false := by
  rw [build_prompt_data]
  exact hasPre_false_of_mismatch _ _ _ instr_promptPart0_mismatch

/-- C1, as stated, is false: at a concrete (source text, extraction result,
rules text) input, the string stored in the dataset entry's `instruction`
field is not the text prefix of the full prompt assembled by
`PromptBuilder.build_prompt` (the two preambles already differ at character
index 53). -/
theorem claim_C1_counterexample :
    listHasPre dataset_instruction.data
      (build_prompt "struct A \x7b\x7d" [PyVal.dict [("name", PyVal.str "A")]]
        "No specific rules matched for this file.").data = false :=
  instr_never_leads_prompt _ _ _

/-- C1 (amended): both rendering paths are fixed deterministic templates, but
the two texts are not byte-identical — for every (source text, extraction
result, rules text) input, the dataset entry's `instruction` string is not a
text prefix of the prompt produced by the prompt assembler. -/
theorem claim_C1 (code : String) (ast : List PyVal) (rules : String) :
    listHasPre dataset_instruction.data (build_prompt code ast rules).data = false :=
  instr_never_leads_prompt code ast rules

/-- C2, as stated, is false: a rule whose description mentions `uikit` can be
judged relevant although no file identifier contains `ui` — the later steps of
the chain are still consulted (here the delegate step fires on identifier
`MyDelegate`). -/
theorem claim_C2_counterexample :
    is_rule_relevant ⟨"R1", "uikit appdelegate", []⟩
        (extract_identifiers_from_ast [PyVal.dict [("name", PyVal.str "MyDelegate")]])
        [PyVal.dict [("name", PyVal.str "MyDelegate")]] = true ∧
      ((extract_identifiers_from_ast [PyVal.dict [("name", PyVal.str "MyDelegate")]]).any
        (fun id => strContains (pyLower id) "ui")) = false := by
  constructor
  · decide
  · decide

/-- C2 (amended): for a rule whose description mentions a UI-framework
base-view keyword, if some file identifier case-insensitively contains `ui`
then the rule is judged relevant, without consulting the later steps of the
chain (the conclusion holds for every pattern and every extraction result);
when no identifier contains `ui`, the later steps are still consulted and may
judge the rule relevant, so the backward implication of the original claim
fails. -/
theorem claim_C2 (rule : Rule) (fileIdentifiers : List String) (astData : List PyVal)
    (hdesc : strContains (pyLower rule.description) "uikit" = true ∨
      strContains (pyLower rule.description) "uiview" = true)
    (hui : (fileIdentifiers.any fun id => strContains (pyLower id) "ui") = true) :
    is_rule_relevant rule fileIdentifiers astData = true := by
  unfold is_rule_relevant
  rcases hdesc with h | h <;> simp [h, hui]

/-- C2 witness: the amended theorem at a concrete rule and file. -/
theorem claim_C2_witness :
    is_rule_relevant ⟨"R2", "UIView subclasses keep their names", [["x"]]⟩
      ["UILabel"] [] = true :=
  claim_C2 _ _ _ (Or.inr (by decide)) (by decide)

/-- C3, as stated, is false: an empty rules file is a file state on which
construction raises.  `yaml.safe_load` returns `None` for empty input, which
`_load_rules` passes through unchanged, and `__init__`'s
`rules_data.get('rules', [])` then raises `AttributeError`. -/
theorem claim_C3_counterexample :
    rule_filter_init true (.value .pyNone) =
      .error "AttributeError: object has no attribute get" := by
  rfl

/-- C3 (amended): constructing the rule filter degrades to an empty corpus
(never raising) when the rules file is missing or when parsing raises, and it
returns the stored `rules` value for any dict-shaped document; but when the
file's content parses to a non-dict document — e.g. an empty file, whose
parse result is `None` — construction raises an `AttributeError` instead of
degrading. -/
theorem claim_C3 :
    (∀ parsed, rule_filter_init false parsed = .ok (.list [])) ∧
      rule_filter_init true .raised = .ok (.list []) ∧
      (∀ m, rule_filter_init true (.value (.dict m)) =
        .ok ((pyLookup m "rules").getD (.list []))) ∧
      (∀ v, isPyDict v = false →
        rule_filter_init true (.value v) =
          .error "AttributeError: object has no attribute get") := by
  refine ⟨fun parsed => rfl, rfl, fun m => rfl, fun v hv => ?_⟩
  cases v <;> simp_all [rule_filter_init, load_rules, isPyDict]

/-- C3 witness: the amended theorem at concrete file states. -/
theorem claim_C3_witness :
    rule_filter_init false .raised = .ok (.list []) ∧
      rule_filter_init true (.value (.list [.str "rule"])) =
        .error "AttributeError: object has no attribute get" :=
  ⟨claim_C3.1 .raised, claim_C3.2.2.2 (.list [.str "rule"]) (by decide)⟩

/-- C4: response parsing is total — its embedding returns a value of the
`ModelResp` shape for every input string by construction — and whenever none
of the three cascade tiers produces a result, the returned identifier list is
empty. -/
theorem claim_C4 (s : String)
    (h1 : parseTier1 s = Option.none)
    (h2 : parseTier2 s = Option.none)
    (h3 : parseTier3 s = Option.none) :
    parse_response s = ⟨[]⟩ := by
  unfold parse_response
  rw [h1, h2, h3]

/-- C4 witness: on the literal input `no structured content at all` every
tier fails and the parser returns the empty identifier list. -/
theorem claim_C4_witness :
    parse_response "no structured content at all" = ⟨[]⟩ :=
  claim_C4 _ (by decide) (by decide) (by decide)

/-- C5: with `maxRetries = 3`, a generation that fails twice and succeeds on
the third attempt returns the successful result with back-off sleeps of 1 s
then 2 s (`2 ** attempt`); a generation that fails all three attempts returns
the empty identifier dict (never a raised error — the wrapper's value is
always a returned dict here). -/
theorem claim_C5 :
    (∀ (gen : Nat → Except String ModelResp) (r : ModelResp),
      (∃ e0, gen 0 = .error e0) → (∃ e1, gen 1 = .error e1) → gen 2 = .ok r →
      generate_with_retry gen 3 = (some r, [1, 2])) ∧
    (∀ (gen : Nat → Except String ModelResp),
      (∀ i, i < 3 → ∃ e, gen i = .error e) →
      generate_with_retry gen 3 = (some ⟨[]⟩, [1, 2])) := by
  constructor
  · rintro gen r ⟨e0, h0⟩ ⟨e1, h1⟩ h2
    show retryFrom gen 3 0 = (some r, [1, 2])
    simp [retryFrom, h0, h1, h2]
  · intro gen h
    obtain ⟨e0, h0⟩ := h 0 (by omega)
    obtain ⟨e1, h1⟩ := h 1 (by omega)
    obtain ⟨e2, h2⟩ := h 2 (by omega)
    show retryFrom gen 3 0 = (some ⟨[]⟩, [1, 2])
    simp [retryFrom, h0, h1, h2]

/-- C5 witness: the theorem at a concrete fail-fail-succeed generator and a
concrete always-failing generator. -/
theorem claim_C5_witness :
    generate_with_retry
        (fun i => if i < 2 then .error "boom" else .ok ⟨["keepMe"]⟩) 3 =
      (some ⟨["keepMe"]⟩, [1, 2]) ∧
    generate_with_retry (fun _ => .error "boom") 3 = (some ⟨[]⟩, [1, 2]) :=
  ⟨claim_C5.1 _ _ ⟨"boom", rfl⟩ ⟨"boom", rfl⟩ rfl,
   claim_C5.2 _ (fun _ _ => ⟨"boom", rfl⟩)⟩

/-- With at least one attempt remaining, the retry loop always produces a
returned dict (either an attempt's successful value or the empty fallback). -/
theorem retryFrom_returns_some :
    ∀ (gen : Nat → Except String ModelResp) (remaining attempt : Nat),
      1 ≤ remaining → ∃ r, (retryFrom gen remaining attempt).1 = some r := by
  intro gen remaining
  induction remaining with
  | zero => intro attempt h; omega
  | succ k ih =>
    intro attempt _
    cases hg : gen attempt with
    | ok r => exact ⟨r, by simp [retryFrom, hg]⟩
    | error e =>
      by_cases hk : k = 0
      · subst hk; exact ⟨⟨[]⟩, by simp [retryFrom, hg]⟩
      · obtain ⟨r, hr⟩ := ih (attempt + 1) (by omega)
        exact ⟨r, by simp [retryFrom, hg, hk, hr]⟩

/-- C9: with `maxRetries = 0` the retry loop body never runs and the wrapper
returns Python's `None` (the absent value, with no sleeps), while for every
`maxRetries ≥ 1` it returns a dict; the data-model promise that a response
"may be empty but never absent" therefore needs the precondition
`maxRetries ≥ 1`. -/
theorem claim_C9 :
    (∀ gen, generate_with_retry gen 0 = (Option.none, [])) ∧
    (∀ gen n, 1 ≤ n → ∃ r, (generate_with_retry gen n).1 = some r) := by
  exact ⟨fun gen => rfl, fun gen n hn => retryFrom_returns_some gen n 0 hn⟩

/-- C9 witness: the theorem at `maxRetries = 0` and `maxRetries = 1` for a
concrete always-failing generator. -/
theorem claim_C9_witness :
    generate_with_retry (fun _ => .error "down") 0 = (Option.none, []) ∧
    ∃ r, (generate_with_retry (fun _ => .error "down") 1).1 = some r :=
  ⟨claim_C9.1 _, claim_C9.2 _ 1 (by decide)⟩

/-- C6: analyzer-output normalization — the concrete example flattens the
`classes` list and then the `methods` list into one ordered sequence; a
`decisions` dict whose category flattening is empty yields Absent; and every
other non-sequence parsed value — null, booleans, numbers, strings, and a
bare object without a `decisions` key alike — is wrapped as a single-element
sequence. -/
theorem claim_C6 :
    normalize_ast_output
        (.dict [("decisions", .dict
          [("classes", .list [.dict [("name", .str "A")]]),
           ("methods", .list [.dict [("name", .str "b")]])])]) =
      some [.dict [("name", .str "A")], .dict [("name", .str "b")]] ∧
    (∀ m decisions, pyLookup m "decisions" = some (.dict decisions) →
      flattenDecisions decisions = [] →
      normalize_ast_output (.dict m) = Option.none) ∧
    (∀ v : PyVal, isPyList v = false → hasDecisionsKey v = false →
      normalize_ast_output v = some [v]) := by
  refine ⟨rfl, ?_, ?_⟩
  · intro m decisions h1 h2
    simp [normalize_ast_output, h1, h2]
  · intro v hlist hdec
    cases v with
    | pyNone => rfl
    | bool b => rfl
    | int n => rfl
    | floatRaw s => rfl
    | str s => rfl
    | list l => simp [isPyList] at hlist
    | dict m =>
      cases hh : pyLookup m "decisions" with
      | none => simp [normalize_ast_output, hh]
      | some x => simp [hasDecisionsKey, hh] at hdec

/-- C6 witness: the theorem's hypothesis-bearing conjuncts at a concrete
empty `decisions` object, a bare object without a `decisions` key, a null,
and a string. -/
theorem claim_C6_witness :
    normalize_ast_output (.dict [("decisions", .dict [])]) = Option.none ∧
    normalize_ast_output (.dict [("meta", .str "v1")]) =
      some [.dict [("meta", .str "v1")]] ∧
    normalize_ast_output .pyNone = some [.pyNone] ∧
    normalize_ast_output (.str "import Foundation") = some [.str "import Foundation"] :=
  ⟨claim_C6.2.1 [("decisions", .dict [])] [] rfl rfl,
   claim_C6.2.2 (.dict [("meta", .str "v1")]) rfl rfl,
   claim_C6.2.2 .pyNone rfl rfl,
   claim_C6.2.2 (.str "import Foundation") rfl rfl⟩

/-- The collection loop returns at most `maxRules - count` further rules, as
long as the running count is still below the cap. -/
theorem filterRulesLoop_length_le :
    ∀ (rules : List Rule) (ids : List String) (ast : List PyVal) (k c : Nat),
      c < k → (filterRulesLoop ids ast k rules c).length ≤ k - c := by
  intro rules
  induction rules with
  | nil => intro ids ast k c hc; simp [filterRulesLoop]
  | cons r rest ih =>
    intro ids ast k c hc
    simp only [filterRulesLoop]
    by_cases hrel : is_rule_relevant r ids ast
    · simp only [hrel, if_true]
      by_cases hbreak : c + 1 ≥ k
      · simp only [hbreak, if_true, List.length_singleton]
        omega
      · simp only [hbreak, if_false, List.length_cons]
        have := ih ids ast k (c + 1) (by omega)
        omega
    · simp only [hrel, Bool.false_eq_true, if_false]
      have := ih ids ast k c hc
      omega

/-- C7, as stated, is false at cap `k = 0`: the break test runs only after a
relevant rule has been appended, so a corpus with one relevant rule returns
one rule, exceeding the cap. -/
theorem claim_C7_counterexample :
    ¬ ((filter_rules_for_file [⟨"R_UIKIT", "uikit", []⟩]
          [PyVal.dict [("name", PyVal.str "UIView")]] 0).length ≤ 0) := by
  decide

/-- C7 (amended): for every cap `k ≥ 1` filtering returns at most `k` rules
(the original claim's `k = 0` case fails by one), and formatting depends only
on the first ten filtered rules — any rules beyond ten are silently dropped. -/
theorem claim_C7 :
    (∀ (allRules : List Rule) (astData : List PyVal) (k : Nat), 1 ≤ k →
      (filter_rules_for_file allRules astData k).length ≤ k) ∧
    (∀ filteredRules : List Rule,
      format_rules_for_prompt filteredRules =
        format_rules_for_prompt (filteredRules.take 10)) := by
  constructor
  · intro allRules astData k hk
    unfold filter_rules_for_file
    by_cases hids : (extract_identifiers_from_ast astData).isEmpty
    · simp [hids]
    · simp only [hids, Bool.false_eq_true, if_false]
      have := filterRulesLoop_length_le allRules
        (extract_identifiers_from_ast astData) astData k 0 (by omega)
      omega
  · intro filteredRules
    cases filteredRules with
    | nil => rfl
    | cons r rest =>
      unfold format_rules_for_prompt
      simp [List.take_take]

/-- C7 witness: the amended theorem at a concrete corpus, extraction result
and the default cap of 20. -/
theorem claim_C7_witness :
    (filter_rules_for_file [⟨"R_UIKIT", "uikit", []⟩]
        [PyVal.dict [("name", PyVal.str "UIView")]] 20).length ≤ 20 ∧
    format_rules_for_prompt [⟨"R_UIKIT", "uikit", []⟩] =
      format_rules_for_prompt ([⟨"R_UIKIT", "uikit", []⟩].take 10) :=
  ⟨claim_C7.1 _ _ 20 (by decide), claim_C7.2 _⟩

/-- C8: the code-string entry point delegates to the path-based extractor and
removes its temporary file on every exit path — a successful extraction, an
Absent result, and a raised exception all leave the temp-file state `false`
while the delegate's outcome is propagated unchanged. -/
theorem claim_C8 :
    (∀ symbols : List PyVal,
      extract_ast_from_code (.ok (some symbols)) = (.ok (some symbols), false)) ∧
    extract_ast_from_code (.ok Option.none) = (.ok Option.none, false) ∧
    (∀ e : String, extract_ast_from_code (.exn e) = (.exn e, false)) :=
  ⟨fun _ => rfl, rfl, fun _ => rfl⟩

/-- C10: with caching enabled and no prior entry for the prompt, a completed
call stores whatever the parser returned — the parse of the reply text — in
the cache under the prompt's hash, and a subsequent call with the
byte-identical prompt returns that cached value with no network call,
whatever the network would have done. -/
theorem claim_C10 (md5 : String → String) (net2 : Except String String)
    (prompt : String) (st : HState) (text : String)
    (hmiss : List.lookup (md5 prompt) st.cache = Option.none) :
    (generate_identifiers md5 (.ok text) true prompt st).2.2 = true ∧
    (generate_identifiers md5 (.ok text) true prompt st).1 =
      .ok (parse_response (pyStrip text)) ∧
    generate_identifiers md5 net2 true prompt
        (generate_identifiers md5 (.ok text) true prompt st).2.1 =
      (.ok (parse_response (pyStrip text)),
       (generate_identifiers md5 (.ok text) true prompt st).2.1, false) := by
  refine ⟨?_, ?_, ?_⟩ <;>
    simp [generate_identifiers, hmiss, List.lookup]

/-- C10 witness: at a concrete prompt, an empty starting cache, and a reply
on which all parse tiers fail, the cached-and-returned value is the empty
fallback `⟨[]⟩`, and the second call performs no network call. -/
theorem claim_C10_witness :
    (generate_identifiers (fun s => s) (.ok "no structured content at all")
        true "PROMPT" ⟨[]⟩).2.2 = true ∧
    (generate_identifiers (fun s => s) (.ok "no structured content at all")
        true "PROMPT" ⟨[]⟩).1 =
      .ok (parse_response (pyStrip "no structured content at all")) ∧
    generate_identifiers (fun s => s) (.error "network down") true "PROMPT"
        (generate_identifiers (fun s => s) (.ok "no structured content at all")
          true "PROMPT" ⟨[]⟩).2.1 =
      (.ok (parse_response (pyStrip "no structured content at all")),
       (generate_identifiers (fun s => s) (.ok "no structured content at all")
         true "PROMPT" ⟨[]⟩).2.1, false) :=
  claim_C10 (fun s => s) (.error "network down") "PROMPT" ⟨[]⟩
    "no structured content at all" rfl
